import Mathlib

/-!
Verification development for the Comtrade acquisition script.

The script is a single-file Python program that incrementally fetches
trade records from the UN Comtrade API, normalizes them through a
pydantic model, and persists them into a SQLite table.  This file gives
a shallow embedding of its data model and operations:

* JSON scalars are modelled by `Json` (arrays and objects are collapsed
  into one opaque constructor `other`, enough to observe that the code
  rejects them where it does).
* Python floats are modelled by `Rat`; the builtin `float(str)` parser
  is modelled by `pyFloatParse`, a decimal parser with optional sign,
  fractional part and exponent (the non-finite literals "inf"/"infinity"
  are outside the model).
* Python string primitives used by the script (strip, lower, isdigit,
  comparison) are modelled by executable char-list functions, since the
  corresponding Lean builtins do not reduce inside the kernel.
* The external `country_converter` library is a black box and enters the
  model as a function argument `conv : String → Option String`
  (`none` models a raised exception or a failed lookup).
* The HTTP layer enters as an oracle `String → String → HttpOutcome`
  giving, per (cmdCode CSV, year) request, the status code, the embedded
  "error" field and the "data" array of the response.
* The SQLite store is a list of committed `Trade` rows; a bulk insert
  either commits the whole payload or (on failure) leaves the list
  unchanged, which is the transactional guarantee the code relies on.
-/

/-- Scalar JSON values as they reach the pydantic model.  `other` stands
for any non-scalar value (array or object); the script never looks
inside those, it only fails on them. -/
inductive Json where
  | null
  | str (s : String)
  | int (n : Int)
  | num (q : Rat)
  | other
deriving DecidableEq

/-- Values of the pydantic type `Union[int, str]`. -/
inductive IntOrStr where
  | i (n : Int)
  | s (s : String)
deriving DecidableEq

/-- Model of Python `str.strip()` (for the whitespace characters the
script can meet). -/
def pyTrim (s : String) : String :=
  String.mk (((s.data.dropWhile Char.isWhitespace).reverse.dropWhile
    Char.isWhitespace).reverse)

/-- Model of Python `str.lower()` on the ASCII strings the script
handles. -/
def pyToLower (s : String) : String :=
  String.mk (s.data.map Char.toLower)

/-- Model of Python `str.isdigit()` restricted to ASCII digits. -/
def pyIsdigit (s : String) : Bool :=
  s.length != 0 && s.data.all Char.isDigit

/-- Python `str(x)` for a `Union[int, str]` value. -/
def pyStrIntOrStr : IntOrStr → String
  | .i n => toString n
  | .s s => s

/-- Python truthiness for an `int`-or-`str` value: `0` and `""` are
falsy. -/
def truthyIntOrStr : IntOrStr → Bool
  | .i n => n != 0
  | .s s => s.length != 0

/-- Python `str.zfill(2)` for the month strings built by the script. -/
def zfill2 (s : String) : String :=
  if s.length ≥ 2 then s else if s.length = 1 then "0" ++ s else "00"

/-- Value of a list of ASCII digit characters read in base 10. -/
def digitsToNat (l : List Char) : Nat :=
  l.foldl (fun a c => a * 10 + (c.toNat - 48)) 0

/-- Parse a non-empty all-digit char list to a natural number. -/
def parseNatDigits (l : List Char) : Option Nat :=
  if l.isEmpty then none
  else if l.all Char.isDigit then some (digitsToNat l)
  else none

/-- Split a char list at every occurrence of the character `c`,
modelling Python `str.split(c)`. -/
def splitOnChar (c : Char) : List Char → List (List Char)
  | [] => [[]]
  | a :: as =>
    match splitOnChar c as with
    | [] => [[]]
    | g :: gs => if a = c then [] :: g :: gs else (a :: g) :: gs

/-- Parse an optionally signed all-digit char list to an integer (used
for float exponents). -/
def parseIntSigned (l : List Char) : Option Int :=
  match l with
  | '-' :: t => (parseNatDigits t).map (fun n => -(n : Int))
  | '+' :: t => (parseNatDigits t).map (fun n => (n : Int))
  | _ => (parseNatDigits l).map (fun n => (n : Int))

/-- Parse an unsigned decimal mantissa: `"12"`, `"12."`, `".5"`,
`"1.5"`; a bare `"."` or anything non-numeric fails. -/
def parseFrac (m : List Char) : Option Rat :=
  match splitOnChar '.' m with
  | [a] => (parseNatDigits a).map (fun n => ((n : Nat) : Rat))
  | [a, b] =>
    if (!a.isEmpty || !b.isEmpty) && a.all Char.isDigit
        && b.all Char.isDigit then
      some (((digitsToNat a : Nat) : Rat)
        + ((digitsToNat b : Nat) : Rat) / ((10 : Rat) ^ b.length))
    else none
  | _ => none

/-- Integer power of ten over `Rat`, written without `zpow` so that the
definition stays in the image of the executable `Rat` operations. -/
def pow10 (e : Int) : Rat :=
  if 0 ≤ e then (((10 : Nat) ^ e.toNat : Nat) : Rat)
  else (1 : Rat) / (((10 : Nat) ^ (-e).toNat : Nat) : Rat)

/-- Model of the Python builtin `float(s)` on finite decimal literals:
optional sign, digits with an optional dot, optional exponent part.
Underscore separators and the non-finite literals are outside the
model (they fail here). -/
def pyFloatParse (s : String) : Option Rat :=
  let (neg, body) :=
    match s.data with
    | '-' :: t => (true, t)
    | '+' :: t => (false, t)
    | t => (false, t)
  let r? : Option Rat :=
    match splitOnChar 'e' (body.map Char.toLower) with
    | [m] => parseFrac m
    | [m, ex] =>
      match parseFrac m, parseIntSigned ex with
      | some mv, some ev => some (mv * pow10 ev)
      | _, _ => none
    | _ => none
  r?.map (fun q => if neg then -q else q)

/-- Model of `TradeModel.sanitize_nums` (script lines 233-252), the
`mode="before"` validator of the numeric fields `qty`, `primaryValue`
and `netWgt`.  `Except.error` models the `TypeError` that `float(v)`
raises on a non-scalar value, which pydantic turns into a
`ValidationError`. -/
def sanitize_nums : Json → Except Unit Rat
  | .null => .ok 0
  | .str s =>
    let v := pyTrim s
    if v.length = 0 then .ok 0
    else if pyToLower v = "null" || pyToLower v = "n/a" || pyToLower v = "nan" then .ok 0
    else
      match pyFloatParse v with
      | some q => .ok q
      | none => .ok 0
  | .int n => .ok (n : Rat)
  | .num q => .ok q
  | .other => .error ()

/-- Single quote character, used when printing Python lists of strings. -/
def squote : String := String.mk [Char.ofNat 39]

/-- Python `str(x)` for a list of strings, as in `str(r_code)`:
`["360"]` prints as `[` `360` surrounded by quotes `]`. -/
def pyStrList (xs : List String) : String :=
  "[" ++ String.intercalate ", " (xs.map (fun s => squote ++ s ++ squote)) ++ "]"

/-- Python `str(x)` for an optional string; `str(None)` is `"None"`. -/
def pyStrOptStr : Option String → String
  | none => "None"
  | some s => s

/-- Model of `CountryCodeConverter.to_m49` (script lines 95-114).  The
external `coco.convert(key, "ISO3", "UNCode")` call is the black box
`conv`; `conv key = none` models both a raised exception (caught, giving
`result = None`) and cache state is the association list.  Note the
control flow of the source: the line `result = "0"` guarded by
`key == "WLD"` is immediately overwritten, because the following
`if key == "ALL": ... else: ...` takes its else branch for `"WLD"` and
reassigns `result` from the external converter. -/
def to_m49 (conv : String → Option String)
    (cache : List (String × Option String)) (iso_code : String) :
    Option String × List (String × Option String) :=
  let key := pyTrim iso_code
  match cache.lookup key with
  | some r => (r, cache)
  | none =>
    if key = "ALL" then (some "ALL", cache)
    else
      let result := conv key
      (result, (key, result) :: cache)

/-- Model of `CountryCodeConverter.to_iso3` (script lines 116-132).
`conv` is `coco.convert(key, "UNCode", "ISO3")`; a failed or raised
lookup echoes the input key, and so does a delegate answer longer than
3 characters. -/
def to_iso3 (conv : String → Option String)
    (cache : List (String × String)) (m49_code : String) :
    String × List (String × String) :=
  let key := pyTrim m49_code
  match cache.lookup key with
  | some r => (r, cache)
  | none =>
    let result :=
      if key = "0" then "WLD"
      else
        match conv key with
        | none => key
        | some r => if r.length > 3 then key else r
    (result, (key, result) :: cache)

/-- First-call (empty cache) value of `to_m49`; for a deterministic
external converter the cache only replays first calls, so this is the
value every call returns. -/
def to_m49P (conv : String → Option String) (iso_code : String) : Option String :=
  (to_m49 conv [] iso_code).1

/-- First-call (empty cache) value of `to_iso3`. -/
def to_iso3P (conv : String → Option String) (m49_code : String) : String :=
  (to_iso3 conv [] m49_code).1

/-- Raw API record as it reaches `TradeModel(**raw_item)`: each declared
field of the pydantic model is either structurally absent (`none`) or
present with a JSON value.  Extra fields are ignored by the model
(`extra = "ignore"`) and therefore do not appear. -/
structure RawRecord where
  reporterCode : Option Json
  partnerCode : Option Json
  refYear : Option Json
  cmdCode : Option Json
  flowCode : Option Json
  classificationCode : Option Json
  refMonth : Option Json
  qty : Option Json
  qtyUnitCode : Option Json
  primaryValue : Option Json
  netWgt : Option Json
  provinsi_reporter : Option Json
  kota_reporter : Option Json
  provinsi_partner : Option Json
  kota_partner : Option Json
  kode_sumber : Option Json

/-- Record with every declared field structurally absent. -/
def rawEmpty : RawRecord :=
  ⟨none, none, none, none, none, none, none, none,
   none, none, none, none, none, none, none, none⟩

/-- Validated output of the pydantic `TradeModel` (script lines
203-230). -/
structure TradeModel where
  reporterCode : IntOrStr
  partnerCode : IntOrStr
  refYear : IntOrStr
  cmdCode : String
  flowCode : String
  classificationCode : Option String
  refMonth : Option IntOrStr
  qty : Option Rat
  qtyUnitCode : Option IntOrStr
  primaryValue : Option Rat
  netWgt : Option Rat
  provinsi_reporter : Option String
  kota_reporter : Option String
  provinsi_partner : Option String
  kota_partner : Option String
  kode_sumber : String

/-- Pydantic v2 lax validation of a `Union[int, str]` field: ints and
strings pass through, an integral float collapses to an int, everything
else is a validation failure. -/
def parseIntOrStr : Json → Except Unit IntOrStr
  | .int n => .ok (.i n)
  | .str s => .ok (.s s)
  | .num q => if q.den = 1 then .ok (.i q.num) else .error ()
  | _ => .error ()

/-- Pydantic v2 lax validation of a plain `str` field: only strings are
accepted (ints are not coerced to strings in lax mode). -/
def parseStrF : Json → Except Unit String
  | .str s => .ok s
  | _ => .error ()

/-- Validation of an `Optional[str]` field. -/
def parseOptStr : Json → Except Unit (Option String)
  | .null => .ok none
  | .str s => .ok (some s)
  | _ => .error ()

/-- Validation of an `Optional[Union[int, str]]` field. -/
def parseOptIntOrStr : Json → Except Unit (Option IntOrStr)
  | .null => .ok none
  | j => (parseIntOrStr j).map (fun v => some v)

/-- Validation of the numeric fields: the `mode="before"` validator
`sanitize_nums` runs first and always yields a float (or fails on a
non-scalar). -/
def parseNumField (j : Json) : Except Unit (Option Rat) :=
  (sanitize_nums j).map (fun q => some q)

/-- Apply a field validator, or use the declared default when the field
is structurally absent (pydantic does not re-validate defaults). -/
def fieldOr (d : α) (f : Json → Except Unit α) : Option Json → Except Unit α
  | none => .ok d
  | some j => f j

/-- Model of `TradeModel(**raw_item)`: validate every declared field,
falling back to the declared defaults for absent fields; any field
failure is the `ValidationError` of the whole record. -/
def tradeModelOfRaw (r : RawRecord) : Except Unit TradeModel :=
  Except.bind (fieldOr (.i 0) parseIntOrStr r.reporterCode) (fun a =>
  Except.bind (fieldOr (.i 0) parseIntOrStr r.partnerCode) (fun b =>
  Except.bind (fieldOr (.i 0) parseIntOrStr r.refYear) (fun c =>
  Except.bind (fieldOr "0000" parseStrF r.cmdCode) (fun d =>
  Except.bind (fieldOr "X" parseStrF r.flowCode) (fun e =>
  Except.bind (fieldOr none parseOptStr r.classificationCode) (fun f =>
  Except.bind (fieldOr none parseOptIntOrStr r.refMonth) (fun g =>
  Except.bind (fieldOr (some 0) parseNumField r.qty) (fun h =>
  Except.bind (fieldOr none parseOptIntOrStr r.qtyUnitCode) (fun i =>
  Except.bind (fieldOr (some 0) parseNumField r.primaryValue) (fun j =>
  Except.bind (fieldOr (some 0) parseNumField r.netWgt) (fun k =>
  Except.bind (fieldOr none parseOptStr r.provinsi_reporter) (fun l =>
  Except.bind (fieldOr none parseOptStr r.kota_reporter) (fun m =>
  Except.bind (fieldOr none parseOptStr r.provinsi_partner) (fun n =>
  Except.bind (fieldOr none parseOptStr r.kota_partner) (fun o =>
  Except.bind (fieldOr "5" parseStrF r.kode_sumber) (fun p =>
  Except.ok ⟨a, b, c, d, e, f, g, h, i, j, k, l, m, n, o, p⟩))))))))))))))))

/-- Record `r` with the five identity fields (reporter code, partner
code, period, classification code, flow direction) made structurally
absent. -/
def clearIdentity (r : RawRecord) : RawRecord :=
  { r with reporterCode := none, partnerCode := none, refYear := none,
           cmdCode := none, flowCode := none }

/-- Lexicographic (code-point) strict comparison of char lists: the
order Python uses to compare and sort strings. -/
def pyStrLtL : List Char → List Char → Bool
  | [], [] => false
  | [], _ :: _ => true
  | _ :: _, [] => false
  | a :: as, b :: bs =>
    if a < b then true else if b < a then false else pyStrLtL as bs

/-- Non-strict string comparison, the sort key of Python `sorted`. -/
def pyStrLe (a b : String) : Prop := pyStrLtL b.data a.data = false

instance : DecidableRel pyStrLe :=
  fun a b => inferInstanceAs (Decidable (pyStrLtL b.data a.data = false))

instance : IsTotal String pyStrLe := by
  constructor
  have asymm : ∀ a b : List Char, pyStrLtL a b = true → pyStrLtL b a = false := by
    intro a
    induction a with
    | nil =>
      intro b h
      cases b with
      | nil => simp [pyStrLtL] at h
      | cons y ys => simp [pyStrLtL]
    | cons x xs ih =>
      intro b h
      cases b with
      | nil => simp [pyStrLtL] at h
      | cons y ys =>
        simp only [pyStrLtL] at h ⊢
        by_cases hxy : x < y
        · simp [hxy, lt_asymm hxy]
        · by_cases hyx : y < x
          · simp [hxy, hyx] at h
          · simp [hxy, hyx] at h ⊢
            exact ih _ h
  intro a b
  cases h : pyStrLtL b.data a.data with
  | false => exact Or.inl h
  | true => exact Or.inr (asymm _ _ h)

instance : IsTrans String pyStrLe := by
  constructor
  have htrans : ∀ a b c : List Char, pyStrLtL a b = true →
      pyStrLtL b c = true → pyStrLtL a c = true := by
    intro a
    induction a with
    | nil =>
      intro b c hab hbc
      cases c with
      | nil =>
        cases b with
        | nil => simp [pyStrLtL] at hab
        | cons y ys => simp [pyStrLtL] at hbc
      | cons z zs => simp [pyStrLtL]
    | cons x xs ih =>
      intro b c hab hbc
      cases b with
      | nil => simp [pyStrLtL] at hab
      | cons y ys =>
        cases c with
        | nil => simp [pyStrLtL] at hbc
        | cons z zs =>
          simp only [pyStrLtL] at hab hbc ⊢
          by_cases hxy : x < y
          · by_cases hyz : y < z
            · simp [lt_trans hxy hyz]
            · by_cases hzy : z < y
              · simp [hyz, hzy] at hbc
              · have hyzeq : y = z := le_antisymm (not_lt.mp hzy) (not_lt.mp hyz)
                simp [hyzeq ▸ hxy]
          · by_cases hyx : y < x
            · simp [hxy, hyx] at hab
            · have hxyeq : x = y := le_antisymm (not_lt.mp hyx) (not_lt.mp hxy)
              simp [hxy, hyx] at hab
              by_cases hyz : y < z
              · simp [hxyeq ▸ hyz]
              · by_cases hzy : z < y
                · simp [hyz, hzy] at hbc
                · have hyzeq : y = z := le_antisymm (not_lt.mp hzy) (not_lt.mp hyz)
                  simp [hyz, hzy] at hbc
                  have hxz : ¬ x < z := hyzeq ▸ hxyeq ▸ hxy
                  have hzx : ¬ z < x := hyzeq ▸ hxyeq ▸ hyx
                  simp [hxz, hzx]
                  exact ih _ _ hab hbc
  have heqn : ∀ a b : List Char, pyStrLtL a b = false →
      pyStrLtL b a = false → a = b := by
    intro a
    induction a with
    | nil =>
      intro b h1 h2
      cases b with
      | nil => rfl
      | cons y ys => simp [pyStrLtL] at h1
    | cons x xs ih =>
      intro b h1 h2
      cases b with
      | nil => simp [pyStrLtL] at h2
      | cons y ys =>
        simp only [pyStrLtL] at h1 h2
        by_cases hxy : x < y
        · simp [hxy] at h1
        · by_cases hyx : y < x
          · simp [hxy, hyx] at h2
          · have hxyeq : x = y := le_antisymm (not_lt.mp hyx) (not_lt.mp hxy)
            simp [hxy, hyx] at h1 h2
            exact hxyeq ▸ congrArg (x :: ·) (ih _ h1 h2)
  intro a b c hab hbc
  unfold pyStrLe at *
  cases h : pyStrLtL c.data a.data with
  | false => rfl
  | true =>
    exfalso
    cases hbc2 : pyStrLtL b.data c.data with
    | true =>
      have habs := htrans _ _ _ hbc2 h
      rw [hab] at habs
      exact Bool.false_ne_true habs
    | false =>
      have hbceq : b.data = c.data := heqn _ _ hbc2 hbc
      rw [← hbceq, hab] at h
      exact Bool.false_ne_true h

/-- Model of the Python builtin `sorted` on lists of strings (ascending
code-point lexicographic order). -/
def pySorted (l : List String) : List String := List.insertionSort pyStrLe l

/-- Python `int(f)` on a float: truncation toward zero. -/
def ratTrunc (q : Rat) : Int :=
  if 0 ≤ q.num then ((q.num.toNat / q.den : Nat) : Int)
  else -(((-q.num).toNat / q.den : Nat) : Int)

/-- One committed row of the `trade` table (script lines 136-200),
restricted to the columns the pipeline writes and reads.  `tahun` keeps
the int-or-str value the transform stored. -/
structure Trade where
  kode_alpha3_reporter : String
  kode_alpha3_partner : String
  bulan : Option String
  tahun : IntOrStr
  hscode : String
  id_sektor : Option String
  vol : Int
  satuan : Option String
  tarif : Rat
  nilai : Rat
  kode_sumber : String
  status : String
  berat_bersih : Rat
  pelabuhan : Option String
  hs_len : Nat
  provinsi_reporter : Option String
  kota_reporter : Option String
  provinsi_partner : Option String
  kota_partner : Option String

/-- Model of `TradeBatchProcessor._transform` (script lines 285-332):
validate through the pydantic model, convert the country codes, apply
the safety defaults and build the row dict; any exception inside the
body (in the model, exactly a validation failure) is caught and yields
`None`. -/
def transform (conv : String → Option String) (raw_item : RawRecord) :
    Option Trade :=
  match tradeModelOfRaw raw_item with
  | .error _ => none
  | .ok clean =>
    some {
      kode_alpha3_reporter := to_iso3P conv (pyStrIntOrStr clean.reporterCode)
      kode_alpha3_partner := to_iso3P conv (pyStrIntOrStr clean.partnerCode)
      bulan :=
        match clean.refMonth with
        | none => none
        | some v =>
          if truthyIntOrStr v then some (zfill2 (pyStrIntOrStr v)) else none
      tahun := clean.refYear
      hscode := clean.cmdCode
      id_sektor := clean.classificationCode
      vol := match clean.qty with | none => 0 | some q => ratTrunc q
      satuan :=
        match clean.qtyUnitCode with
        | none => none
        | some v => if truthyIntOrStr v then some (pyStrIntOrStr v) else none
      tarif := 0
      nilai := match clean.primaryValue with | none => 0 | some q => q
      kode_sumber := clean.kode_sumber
      status := if clean.flowCode = "M" then "Import" else "Export"
      berat_bersih := match clean.netWgt with | none => 0 | some q => q
      pelabuhan := none
      hs_len := if clean.cmdCode = "" then 0 else clean.cmdCode.length
      provinsi_reporter := clean.provinsi_reporter
      kota_reporter := clean.kota_reporter
      provinsi_partner := clean.provinsi_partner
      kota_partner := clean.kota_partner
    }

/-- Result dict of `TradeBatchProcessor.process`. -/
structure BatchResult where
  total : Nat
  success : Nat
deriving DecidableEq

/-- Model of `TradeBatchProcessor.process` (script lines 262-283).
Records whose transform failed are skipped; a non-empty payload is
written with one `bulk_insert_mappings` + `commit` inside a single
transaction, so the store either gains the whole payload (`insertOk`)
or, on a persistence failure followed by `rollback`, stays unchanged
and the batch reports zero successes. -/
def process (conv : String → Option String) (insertOk : Bool)
    (store : List Trade) (raw_data_list : List RawRecord) :
    List Trade × BatchResult :=
  let batch_payload := raw_data_list.filterMap (transform conv)
  if batch_payload.isEmpty then
    (store, ⟨raw_data_list.length, 0⟩)
  else if insertOk then
    (store ++ batch_payload, ⟨raw_data_list.length, batch_payload.length⟩)
  else
    (store, ⟨raw_data_list.length, 0⟩)

/-- Batch size used by `JobOrchestrator.run` (script line 482). -/
def BATCH_SIZE : Nat := 10

/-- Model of the chunking comprehension
`[lst[i:i+k] for i in range(0, len(lst), k)]` of script line 483 (and of
the generator `chunk_list` of lines 338-340, which has the same
slices). -/
def chunk_list (data_list : List α) (chunk_size : Nat) : List (List α) :=
  (List.range' 0 ((data_list.length + chunk_size - 1) / chunk_size)
    chunk_size).map (fun i => (data_list.drop i).take chunk_size)

/-- Model of the success branch of `JobOrchestrator._get_valid_hs4_codes`
(script line 433) on the already stringified `id` values of the
reference response: keep the ids that are purely numeric and exactly 4
characters long, sorted. -/
def getValidHs4 (ids : List String) : List String :=
  pySorted (ids.filter (fun s => pyIsdigit s && s.length == 4))

/-- Model of the fallback branch of `_get_valid_hs4_codes` (script line
437): `[str(i) for i in range(100, 9999) if len(str(i)) == 4]`. -/
def fallbackHs4 : List String :=
  ((List.range' 100 9899).filter (fun i => (toString i).length == 4)).map
    (fun i => toString i)

/-- SQLite comparison of the INTEGER-affinity column `tahun` against a
string operand: the text operand is converted to its numeric value, so
an integer matches exactly when its decimal form equals the operand. -/
def sqliteIntEq (v : IntOrStr) (y : String) : Bool :=
  match v with
  | .i n => toString n == y
  | .s s => s == y

/-- Model of `JobOrchestrator._get_existing_code` (script lines 439-452):
the distinct `id_sektor` values of the rows whose
`kode_alpha3_reporter` equals the given filter value and whose `tahun`
matches the year string.  The store-unreachable fallback to an empty
set is not modelled (the store is always available here). -/
def get_existing_code (store : List Trade) (repFilter : String)
    (year : String) : List (Option String) :=
  ((store.filter (fun t =>
    t.kode_alpha3_reporter == repFilter && sqliteIntEq t.tahun year)).map
      (fun t => t.id_sektor)).dedup

/-- Model of script line 472,
`sorted(list(set(all_hs_codes) - existing_hs))`: the catalog as a set,
minus the existing values, sorted ascending. -/
def gapTarget (all_hs_codes : List String)
    (existing_hs : List (Option String)) : List String :=
  pySorted ((all_hs_codes.dedup).filter
    (fun c => !(existing_hs.contains (some c))))

/-- Transport-level outcome of one GET against the data endpoint:
either a response (status code, embedded `error` field, `data` array)
or a network failure. -/
inductive HttpOutcome where
  | resp (status : Nat) (errorField : Option String) (data : List RawRecord)
  | netError (msg : String)

/-- Model of `ComtradeClient.fetch_annual_data` (script lines 356-407)
above the transport: a 403 status raises the quota error, any other
error status raises the wrapped HTTP error, a truthy embedded `error`
field raises the API error, otherwise the `data` array is returned.
The message strings follow the source, which later matches on the
substring `"403"`. -/
def fetch_annual_data (oracle : String → String → HttpOutcome)
    (hs_codes year : String) : Except String (List RawRecord) :=
  match oracle hs_codes year with
  | .netError m => .error ("Network Failed: " ++ m)
  | .resp status errF data =>
    if status == 403 then .error "403 Quota Exceeded"
    else if 400 ≤ status then .error ("HTTP failed:" ++ toString status)
    else
      match errF with
      | some em => if em.length = 0 then .ok data
                   else .error ("API Error message: " ++ em)
      | none => .ok data

/-- Whether the char list `n` occurs at the start of `h`. -/
def listStarts : List Char → List Char → Bool
  | [], _ => true
  | _ :: _, [] => false
  | a :: as, b :: bs => a == b && listStarts as bs

/-- Whether the char list `n` occurs anywhere inside `h`. -/
def listHasSub (n : List Char) : List Char → Bool
  | [] => n.isEmpty
  | c :: t => listStarts n (c :: t) || listHasSub n t

/-- Model of the Python substring test `needle in hay`. -/
def pyInStr (needle hay : String) : Bool := listHasSub needle.data hay.data

/-- Inner batch loop of `JobOrchestrator.run` (script lines 488-506) for
one year: fetch each chunk; on success persist it; on an error whose
message holds `"403"` return from the whole run (flag `true`); on any
other error continue with the next chunk.  The result carries the
store, the list of (year, batch) pairs for which an API call was made,
and the abort flag.  Database inserts are taken as succeeding
(`process` is called with `insertOk = true`); `process` never raises,
so only fetch errors reach the except clause, as in the source. -/
def runChunks (oracle : String → String → HttpOutcome)
    (conv : String → Option String) :
    List (List String) → List Trade → String →
    List Trade × List (String × List String) × Bool
  | [], store, _ => (store, [], false)
  | batch :: rest, store, year =>
    let hs_str := String.intercalate "," batch
    match fetch_annual_data oracle hs_str year with
    | .ok raw =>
      let res := process conv true store raw
      let rec1 := runChunks oracle conv rest res.1 year
      (rec1.1, (year, batch) :: rec1.2.1, rec1.2.2)
    | .error e =>
      if pyInStr "403" e then (store, [(year, batch)], true)
      else
        let rec1 := runChunks oracle conv rest store year
        (rec1.1, (year, batch) :: rec1.2.1, rec1.2.2)

/-- Year loop of `JobOrchestrator.run` (script lines 464-508): per year,
query the existing codes, compute the gap, skip complete years, chunk
the target and run the batch loop; a quota abort ends the whole run. -/
def runYears (oracle : String → String → HttpOutcome)
    (conv : String → Option String) (all_hs_codes : List String)
    (repKey : String) :
    List String → List Trade → List Trade × List (String × List String)
  | [], store => (store, [])
  | year :: rest, store =>
    let existing_hs := get_existing_code store repKey year
    let target_hs := gapTarget all_hs_codes existing_hs
    if target_hs.isEmpty then
      runYears oracle conv all_hs_codes repKey rest store
    else
      let chunks := chunk_list target_hs BATCH_SIZE
      let res := runChunks oracle conv chunks store year
      if res.2.2 then (res.1, res.2.1)
      else
        let more := runYears oracle conv all_hs_codes repKey rest res.1
        (more.1, res.2.1 ++ more.2)

/-- Model of `JobOrchestrator.run` (script lines 454-508).  The partner
code only feeds the HTTP query parameters, which live behind the
oracle, so it does not appear.  Note the source passes the Python list
`r_code` itself (not one reporter string) into `_get_existing_code`,
whose `to_iso3` call therefore stringifies the list. -/
def run (oracle : String → String → HttpOutcome)
    (conv_iso conv_m49 : String → Option String) (store : List Trade)
    (all_hs_codes : List String) (reporters_iso : List String)
    (start_year end_year : Nat) :
    List Trade × List (String × List String) :=
  let r_code := reporters_iso.map (fun r => pyStrOptStr (to_m49P conv_m49 r))
  let repKey := to_iso3P conv_iso (pyStrList r_code)
  let years := (List.range' start_year (end_year + 1 - start_year)).map
    (fun y => toString y)
  runYears oracle conv_iso all_hs_codes repKey years store

/-- Whether the HTTP response for the (year, batch) request carries
status 403. -/
def oracle403 (oracle : String → String → HttpOutcome) (year : String)
    (batch : List String) : Bool :=
  match oracle (String.intercalate "," batch) year with
  | .resp status _ _ => status == 403
  | .netError _ => false

/-- No API call in the trace comes after a call that received a 403
status: any decomposition of the trace around a 403 call has an empty
tail. -/
def noCallAfter403 (oracle : String → String → HttpOutcome)
    (calls : List (String × List String)) : Prop :=
  ∀ (pre post : List (String × List String)) (y : String) (b : List String),
    calls = pre ++ (y, b) :: post → oracle403 oracle y b = true → post = []

/-- Raw record whose quantity field holds a non-scalar value: its
transform raises inside the pydantic model and is skipped. -/
def c10bad : RawRecord := { rawEmpty with qty := some .other }

/-- Raw record with only string-typed fields present, used to witness
the amended C3. -/
def c3raw : RawRecord :=
  { rawEmpty with
    reporterCode := some (.str "IDN")
    cmdCode := some (.str "010121")
    flowCode := some (.str "M") }

/-- Eleven distinct code strings, to exercise the batching on a list
that does not divide evenly. -/
def c9list : List String :=
  ["1001", "1002", "1003", "1004", "1005", "1006", "1007", "1008",
   "1009", "1010", "1011"]

/-- Oracle whose every response is an HTTP 403. -/
def c5oracle : String → String → HttpOutcome := fun _ _ => .resp 403 none []

/-- External UN-to-ISO3 converter of the C1 scenario: it knows exactly
the UN code 360 (Indonesia). -/
def c1conv_iso : String → Option String :=
  fun k => if k = "360" then some "IDN" else none

/-- External ISO3-to-UN converter of the C1 scenario. -/
def c1conv_m49 : String → Option String :=
  fun k => if k = "IDN" then some "360" else none

/-- One raw API record of the C1 scenario: commodity code "0101",
classification scheme "H6", reporter 360. -/
def c1raw : RawRecord :=
  { rawEmpty with
    reporterCode := some (.int 360)
    partnerCode := some (.int 36)
    refYear := some (.int 2023)
    cmdCode := some (.str "0101")
    flowCode := some (.str "M")
    classificationCode := some (.str "H6")
    qty := some (.int 5)
    primaryValue := some (.int 100)
    netWgt := some (.int 2) }

/-- Oracle of the C1 scenario: every request succeeds and returns the
single record `c1raw`. -/
def c1oracle : String → String → HttpOutcome := fun _ _ => .resp 200 none [c1raw]

/-- First run of the C1 scenario over catalog `["0101"]`, reporter
`"IDN"`, year 2023, against an empty store. -/
def c1run1 : List Trade × List (String × List String) :=
  run c1oracle c1conv_iso c1conv_m49 [] ["0101"] ["IDN"] 2023 2023

/-- Second run of the C1 scenario over the same inputs, against the
store left by the first run. -/
def c1run2 : List Trade × List (String × List String) :=
  run c1oracle c1conv_iso c1conv_m49 c1run1.1 ["0101"] ["IDN"] 2023 2023

theorem exbind_ok (a : α) (f : α → Except ε β) : Except.bind (.ok a) f = f a := rfl

theorem exbind_error (e : ε) (f : α → Except ε β) :
    (Except.bind (.error e) f : Except ε β) = .error e := rfl

theorem fieldOr_none (d : α) (f : Json → Except Unit α) :
    fieldOr d f none = .ok d := rfl

theorem toDigitsCore_append (b : Nat) :
    ∀ (f n : Nat) (l : List Char),
      Nat.toDigitsCore b f n l = Nat.toDigitsCore b f n [] ++ l := by
  intro f
  induction f with
  | zero => intro n l; simp [Nat.toDigitsCore]
  | succ f ih =>
    intro n l
    simp only [Nat.toDigitsCore]
    by_cases h : n / b = 0
    · simp [h]
    · simp only [h, ite_false]
      rw [ih (n / b) (Nat.digitChar (n % b) :: l), ih (n / b) [Nat.digitChar (n % b)]]
      simp

theorem toDigitsCore_fuel (b : Nat) (hb : 1 < b) :
    ∀ (n f₁ f₂ : Nat) (l : List Char), n < f₁ → n < f₂ →
      Nat.toDigitsCore b f₁ n l = Nat.toDigitsCore b f₂ n l := by
  intro n
  induction n using Nat.strong_induction_on with
  | _ n ih =>
    intro f₁ f₂ l h₁ h₂
    cases f₁ with
    | zero => omega
    | succ a =>
      cases f₂ with
      | zero => omega
      | succ c =>
        simp only [Nat.toDigitsCore]
        by_cases h : n / b = 0
        · simp [h]
        · simp only [h, ite_false]
          have hn : 0 < n := by
            rcases Nat.eq_zero_or_pos n with h0 | h0
            · subst h0; simp [Nat.zero_div] at h
            · exact h0
          have hdiv : n / b < n := Nat.div_lt_self hn hb
          exact ih (n / b) hdiv a c _ (by omega) (by omega)

theorem toDigits_small (n : Nat) (h : n < 10) :
    Nat.toDigits 10 n = [Nat.digitChar n] := by
  unfold Nat.toDigits
  simp [Nat.toDigitsCore, Nat.div_eq_of_lt h, Nat.mod_eq_of_lt h]

theorem toDigits_split (n : Nat) (h : 10 ≤ n) :
    Nat.toDigits 10 n
      = Nat.toDigits 10 (n / 10) ++ [Nat.digitChar (n % 10)] := by
  have hd : ¬ n / 10 = 0 := by
    have : 1 ≤ n / 10 := (Nat.le_div_iff_mul_le (by norm_num)).mpr (by omega)
    omega
  have h1 : n / 10 < n := Nat.div_lt_self (by omega) (by norm_num)
  show Nat.toDigitsCore 10 (n + 1) n [] = _
  simp only [Nat.toDigitsCore, hd, ite_false]
  rw [toDigitsCore_append 10 n (n / 10) [Nat.digitChar (n % 10)]]
  congr 1
  exact toDigitsCore_fuel 10 (by norm_num) (n / 10) n (n / 10 + 1) []
    (by omega) (by omega)

theorem digitChar_toNat (d : Nat) (h : d < 10) :
    (Nat.digitChar d).toNat - 48 = d := by
  interval_cases d <;> rfl

theorem digitsToNat_toDigits : ∀ n : Nat, digitsToNat (Nat.toDigits 10 n) = n := by
  intro n
  induction n using Nat.strong_induction_on with
  | _ n ih =>
    by_cases h : n < 10
    · rw [toDigits_small n h]
      simp [digitsToNat, digitChar_toNat n h]
    · push_neg at h
      rw [toDigits_split n h]
      unfold digitsToNat
      rw [List.foldl_append]
      simp only [List.foldl]
      have hx := ih (n / 10) (Nat.div_lt_self (by omega) (by norm_num))
      unfold digitsToNat at hx
      rw [hx, digitChar_toNat (n % 10) (Nat.mod_lt n (by norm_num))]
      omega

theorem toDigits_length_pos (n : Nat) : 0 < (Nat.toDigits 10 n).length := by
  by_cases h : n < 10
  · rw [toDigits_small n h]; simp
  · push_neg at h; rw [toDigits_split n h]; simp

theorem toDigits_length_ge4 (n : Nat) (h : 1000 ≤ n) :
    4 ≤ (Nat.toDigits 10 n).length := by
  have h1 : 100 ≤ n / 10 := (Nat.le_div_iff_mul_le (by norm_num)).mpr (by omega)
  have h2 : 10 ≤ n / 10 / 10 :=
    (Nat.le_div_iff_mul_le (by norm_num)).mpr (by omega)
  rw [toDigits_split n (by omega), toDigits_split (n / 10) (by omega),
    toDigits_split (n / 10 / 10) (by omega)]
  have := toDigits_length_pos (n / 10 / 10 / 10)
  simp [List.length_append]
  omega

theorem toString_nat_eq (n : Nat) : toString n = Nat.repr n := rfl

theorem toString_nat_length (n : Nat) :
    (toString n).length = (Nat.toDigits 10 n).length := rfl

theorem toString_nat_data (n : Nat) : (toString n).data = Nat.toDigits 10 n := rfl

theorem toString_length_eq_four (i : Nat) (h1 : 1000 ≤ i) (h2 : i < 10000) :
    (toString i).length = 4 := by
  have hu : (Nat.repr i).length ≤ 4 := Nat.repr_length i 4 (by norm_num) (by omega)
  have hu2 : (Nat.toDigits 10 i).length ≤ 4 := hu
  have hl := toDigits_length_ge4 i h1
  rw [toString_nat_length]
  omega

theorem toString_length_le_three (i : Nat) (h2 : i < 1000) :
    (toString i).length ≤ 3 := by
  have hu : (Nat.repr i).length ≤ 3 := Nat.repr_length i 3 (by norm_num) (by omega)
  rw [toString_nat_eq]
  exact hu

theorem fallbackHs4_eq :
    fallbackHs4 = (List.range' 1000 8999).map (fun n => toString n) := by
  unfold fallbackHs4
  have hsplit : List.range' 100 9899 = List.range' 100 900 ++ List.range' 1000 8999 := by
    have h := List.range'_append 100 900 8999 1
    norm_num at h
    exact h.symm
  rw [hsplit, List.filter_append, List.map_append]
  have h1 : List.filter (fun i => (toString i).length == 4) (List.range' 100 900) = [] := by
    rw [List.filter_eq_nil_iff]
    intro a ha
    have hb := List.mem_range'_1.mp ha
    simp only [beq_iff_eq]
    have := toString_length_le_three a (by omega)
    omega
  have h2 : List.filter (fun i => (toString i).length == 4) (List.range' 1000 8999)
      = List.range' 1000 8999 := by
    rw [List.filter_eq_self]
    intro a ha
    have hb := List.mem_range'_1.mp ha
    simp only [beq_iff_eq]
    exact toString_length_eq_four a (by omega) (by omega)
  rw [h1, h2]
  simp

theorem chunk_list_mem_length_le (l : List α) (k : Nat) :
    ∀ c ∈ chunk_list l k, c.length ≤ k := by
  intro c hc
  unfold chunk_list at hc
  rw [List.mem_map] at hc
  obtain ⟨i, _, rfl⟩ := hc
  rw [List.length_take]
  exact min_le_left _ _

theorem chunk_list_get_length (l : List α) (k i : Nat) (hk : 0 < k)
    (h : i + 1 < (chunk_list l k).length) :
    ((chunk_list l k).get ⟨i, Nat.lt_of_succ_lt h⟩).length = k := by
  unfold chunk_list at *
  rw [List.length_map, List.length_range'] at h
  rw [List.get_eq_getElem, List.getElem_map, List.getElem_range']
  show (List.take k (List.drop (0 + k * i) l)).length = k
  rw [List.length_take, List.length_drop, inf_eq_left]
  have hmul : (i + 2) * k ≤ l.length + k - 1 :=
    (Nat.le_div_iff_mul_le hk).mp (by omega)
  have hexp : (i + 2) * k = k * i + 2 * k := by ring
  rw [hexp] at hmul
  omega

theorem range'_add_map (f : Nat → β) (k : Nat) :
    ∀ (m s : Nat), (List.range' (s + k) m k).map f
      = (List.range' s m k).map (fun i => f (i + k)) := by
  intro m
  induction m with
  | zero => intro s; simp
  | succ m ih =>
    intro s
    rw [List.range'_succ, List.range'_succ]
    simp only [List.map_cons]
    refine congrArg₂ (· :: ·) rfl ?_
    exact ih (s + k)

theorem chunk_list_cons (l : List α) (k : Nat) (hk : 0 < k) (hl : l ≠ []) :
    chunk_list l k = l.take k :: chunk_list (l.drop k) k := by
  have hlen : 1 ≤ l.length := List.length_pos.mpr hl
  unfold chunk_list
  have hcount : (l.length + k - 1) / k = ((l.drop k).length + k - 1) / k + 1 := by
    rw [List.length_drop]
    have key : l.length + k - 1 = (l.length - 1) + k := by omega
    rw [key, Nat.add_div_right _ hk]
    by_cases hc : l.length ≤ k
    · have h1 : l.length - k = 0 := by omega
      rw [h1]
      have h2 : (0 + k - 1) / k = 0 := Nat.div_eq_of_lt (by omega)
      have h3 : (l.length - 1) / k = 0 := Nat.div_eq_of_lt (by omega)
      rw [h2, h3]
    · have key2 : l.length - k + k - 1 = l.length - 1 := by omega
      rw [key2]
  rw [hcount, List.range'_succ, List.map_cons]
  refine congrArg₂ (· :: ·) (by simp) ?_
  rw [range'_add_map (fun i => (l.drop i).take k) k
    (((l.drop k).length + k - 1) / k) 0]
  refine List.map_congr_left ?_
  intro i _
  dsimp only
  rw [List.drop_drop]
  congr 2
  omega

theorem chunk_list_join (l : List α) (k : Nat) (hk : 0 < k) :
    (chunk_list l k).flatten = l := by
  suffices H : ∀ (n : Nat) (l : List α), l.length = n → (chunk_list l k).flatten = l by
    exact H l.length l rfl
  intro n
  induction n using Nat.strong_induction_on with
  | _ n ih =>
    intro l hlen
    by_cases hl : l = []
    · subst hl
      simp [chunk_list, Nat.div_eq_of_lt (by omega : 0 + k - 1 < k)]
    · rw [chunk_list_cons l k hk hl]
      have hpos : 1 ≤ l.length := List.length_pos.mpr hl
      have hdrop : (l.drop k).length < n := by
        rw [List.length_drop]; omega
      rw [List.flatten_cons, ih _ (hlen ▸ hdrop) (l.drop k) rfl]
      exact List.take_append_drop k l

theorem fetch_of_403 (oracle : String → String → HttpOutcome)
    (y : String) (b : List String) (h : oracle403 oracle y b = true) :
    fetch_annual_data oracle (String.intercalate "," b) y
      = .error "403 Quota Exceeded" := by
  unfold oracle403 at h
  unfold fetch_annual_data
  cases ho : oracle (String.intercalate "," b) y with
  | netError m => rw [ho] at h; simp at h
  | resp status errF data =>
    rw [ho] at h
    simp only [beq_iff_eq] at h
    simp [ho, h]

theorem pyInStr_403 : pyInStr "403" "403 Quota Exceeded" = true := by decide

theorem noCall_nil (oracle : String → String → HttpOutcome) :
    noCallAfter403 oracle [] := by
  intro pre post y b h _
  cases pre <;> simp at h

theorem noCall_single (oracle : String → String → HttpOutcome)
    (c : String × List String) : noCallAfter403 oracle [c] := by
  intro pre post y b heq _
  cases pre with
  | nil =>
    simp only [List.nil_append] at heq
    exact (List.cons.injEq _ _ _ _ ▸ heq).2.symm
  | cons p pre2 => simp at heq

theorem noCall_cons (oracle : String → String → HttpOutcome)
    (c : String × List String) (t : List (String × List String))
    (hc : oracle403 oracle c.1 c.2 = false) (ht : noCallAfter403 oracle t) :
    noCallAfter403 oracle (c :: t) := by
  intro pre post y b heq h403
  cases pre with
  | nil =>
    simp only [List.nil_append, List.cons.injEq] at heq
    rw [heq.1] at hc
    rw [hc] at h403
    exact Bool.noConfusion h403
  | cons p pre2 =>
    simp only [List.cons_append, List.cons.injEq] at heq
    exact ht pre2 post y b heq.2 h403

theorem noCall_append (oracle : String → String → HttpOutcome)
    (t1 t2 : List (String × List String))
    (h1 : ∀ c ∈ t1, oracle403 oracle c.1 c.2 = false)
    (h2 : noCallAfter403 oracle t2) : noCallAfter403 oracle (t1 ++ t2) := by
  induction t1 with
  | nil => simpa
  | cons c t ih =>
    refine noCall_cons oracle c (t ++ t2) (h1 c (List.mem_cons_self c t)) ?_
    exact ih (fun d hd => h1 d (List.mem_cons_of_mem _ hd))

theorem runChunks_noCall (oracle : String → String → HttpOutcome)
    (conv : String → Option String) :
    ∀ (chunks : List (List String)) (store : List Trade) (year : String),
      noCallAfter403 oracle (runChunks oracle conv chunks store year).2.1 := by
  intro chunks
  induction chunks with
  | nil => intro store year; exact noCall_nil oracle
  | cons batch rest ih =>
    intro store year
    unfold runChunks
    cases hf : fetch_annual_data oracle (String.intercalate "," batch) year with
    | ok raw =>
      simp only [hf]
      refine noCall_cons oracle (year, batch) _ ?_ (ih _ year)
      cases ho : oracle403 oracle year batch
      · rfl
      · exfalso
        have hfe := fetch_of_403 oracle year batch ho
        rw [hf] at hfe
        exact Except.noConfusion hfe
    | error e =>
      simp only [hf]
      cases h4 : pyInStr "403" e
      · simp only [h4, Bool.false_eq_true, if_false]
        refine noCall_cons oracle (year, batch) _ ?_ (ih _ year)
        cases ho : oracle403 oracle year batch
        · rfl
        · exfalso
          have hfe := fetch_of_403 oracle year batch ho
          rw [hf] at hfe
          injection hfe with he
          rw [he, pyInStr_403] at h4
          exact Bool.noConfusion h4
      · simp only [h4, if_true]
        exact noCall_single oracle (year, batch)

theorem runChunks_all_ok (oracle : String → String → HttpOutcome)
    (conv : String → Option String) :
    ∀ (chunks : List (List String)) (store : List Trade) (year : String),
      (runChunks oracle conv chunks store year).2.2 = false →
      ∀ c ∈ (runChunks oracle conv chunks store year).2.1,
        oracle403 oracle c.1 c.2 = false := by
  intro chunks
  induction chunks with
  | nil => intro store year _ c hc; simp [runChunks] at hc
  | cons batch rest ih =>
    intro store year hab c hc
    unfold runChunks at hab hc
    cases hf : fetch_annual_data oracle (String.intercalate "," batch) year with
    | ok raw =>
      simp only [hf] at hab hc
      rcases List.mem_cons.mp hc with hc1 | hc2
      · subst hc1
        cases ho : oracle403 oracle year batch
        · rfl
        · exfalso
          have hfe := fetch_of_403 oracle year batch ho
          rw [hf] at hfe
          exact Except.noConfusion hfe
      · exact ih _ year hab c hc2
    | error e =>
      simp only [hf] at hab hc
      cases h4 : pyInStr "403" e
      · simp only [h4, Bool.false_eq_true, if_false] at hab hc
        rcases List.mem_cons.mp hc with hc1 | hc2
        · subst hc1
          cases ho : oracle403 oracle year batch
          · rfl
          · exfalso
            have hfe := fetch_of_403 oracle year batch ho
            rw [hf] at hfe
            injection hfe with he
            rw [he, pyInStr_403] at h4
            exact Bool.noConfusion h4
        · exact ih _ year hab c hc2
      · simp only [h4, if_true] at hab
        exact Bool.noConfusion hab

theorem runYears_noCall (oracle : String → String → HttpOutcome)
    (conv : String → Option String) (catalog : List String)
    (repKey : String) :
    ∀ (years : List String) (store : List Trade),
      noCallAfter403 oracle
        (runYears oracle conv catalog repKey years store).2 := by
  intro years
  induction years with
  | nil => intro store; exact noCall_nil oracle
  | cons year rest ih =>
    intro store
    unfold runYears
    by_cases hskip :
        (gapTarget catalog (get_existing_code store repKey year)).isEmpty = true
    · simp only [hskip, if_true]
      exact ih store
    · simp only [hskip, Bool.false_eq_true, if_false]
      cases hab : (runChunks oracle conv
          (chunk_list (gapTarget catalog (get_existing_code store repKey year))
            BATCH_SIZE) store year).2.2
      · simp only [hab, Bool.false_eq_true, if_false]
        refine noCall_append oracle _ _ ?_ (ih _)
        exact runChunks_all_ok oracle conv _ store year hab
      · simp only [hab, if_true]
        exact runChunks_noCall oracle conv _ store year

theorem contains_map_some (E : List String) (x : String) :
    ((E.map (fun e => some e)).contains (some x) = true) ↔ x ∈ E := by
  simp [List.elem_iff]

/-- C2: for every catalog `C` and existing-code set `E ⊆ C`, the gap
computation of script line 472 returns exactly the set difference
`C − E` (membership characterization together with no duplicates), as a
list sorted ascending in the code-point order Python sorts strings
by. -/
theorem claim_C2_gap_correctness (C E : List String)
    (hE : ∀ x ∈ E, x ∈ C) :
    (∀ x, x ∈ gapTarget C (E.map (fun e => some e)) ↔ (x ∈ C ∧ x ∉ E))
    ∧ List.Sorted pyStrLe (gapTarget C (E.map (fun e => some e)))
    ∧ (gapTarget C (E.map (fun e => some e))).Nodup := by
  unfold gapTarget pySorted
  refine ⟨?_, List.sorted_insertionSort pyStrLe _, ?_⟩
  · intro x
    rw [(List.perm_insertionSort pyStrLe _).mem_iff]
    rw [List.mem_filter, List.mem_dedup, Bool.not_eq_true']
    constructor
    · rintro ⟨hc, hb⟩
      refine ⟨hc, fun hxE => ?_⟩
      rw [(contains_map_some E x).mpr hxE] at hb
      exact Bool.noConfusion hb
    · rintro ⟨hc, hne⟩
      refine ⟨hc, ?_⟩
      cases hb : (E.map (fun e => some e)).contains (some x)
      · rfl
      · exact absurd ((contains_map_some E x).mp hb) hne
  · refine ((List.perm_insertionSort pyStrLe _).nodup_iff).mpr ?_
    exact List.Nodup.filter _ (List.nodup_dedup C)

/-- C2 witness at the scenario of the spec: catalog
`["0101","0102","0103"]`, existing `["0101"]`. -/
theorem claim_C2_witness :
    ("0102" ∈ gapTarget ["0101", "0102", "0103"] (["0101"].map (fun e => some e))
      ↔ ("0102" ∈ ["0101", "0102", "0103"] ∧ "0102" ∉ ["0101"]))
    ∧ List.Sorted pyStrLe
        (gapTarget ["0101", "0102", "0103"] (["0101"].map (fun e => some e)))
    ∧ (gapTarget ["0101", "0102", "0103"] (["0101"].map (fun e => some e))).Nodup := by
  have h := claim_C2_gap_correctness ["0101", "0102", "0103"] ["0101"]
    (by decide)
  exact ⟨h.1 "0102", h.2.1, h.2.2⟩

/-- C4: the script intends `to_m49("WLD") == "0"`, but the assignment
`result = "0"` is dead: the following `if key == "ALL": ... else: ...`
reassigns `result` from the external converter for every key other than
`"ALL"`, so `to_m49` returns whatever the external converter gives for
the non-ISO3 input `"WLD"` (here modelled as a failed lookup, hence
`none`, the model of Python `None`).  The reverse direction
`to_iso3("0") == "WLD"` does hold. -/
theorem claim_C4_wld_sentinel :
    (∀ conv : String → Option String, (to_m49 conv [] "WLD").1 = conv "WLD")
    ∧ (to_m49 (fun _ => none) [] "WLD").1 = none
    ∧ (to_iso3 (fun _ => none) [] "0").1 = "WLD" := by
  refine ⟨fun conv => ?_, rfl, rfl⟩
  rfl

/-- C6: if the bulk write of a batch fails (`insertOk = false`, the
model of an exception out of `bulk_insert_mappings` or `commit`
followed by the `rollback` of script line 277), the store is unchanged
— it contains none of the batch records — and the batch result reports
zero succeeded out of the full total. -/
theorem claim_C6_batch_atomicity (conv : String → Option String)
    (store : List Trade) (raw_data_list : List RawRecord) :
    (process conv false store raw_data_list).1 = store
    ∧ (process conv false store raw_data_list).2.success = 0
    ∧ (process conv false store raw_data_list).2.total
        = raw_data_list.length := by
  unfold process
  by_cases hp : (raw_data_list.filterMap (transform conv)).isEmpty = true <;>
    simp [hp]

/-- C7: `sanitize_nums` maps `null`, `""`, `"n/a"`, `"NaN"` and
`"42.5"` to `0.0, 0.0, 0.0, 0.0, 42.5`, and any string whose trimmed
form the float parser rejects degrades to `0.0` instead of failing the
record. -/
theorem claim_C7_numeric_sanitization :
    sanitize_nums .null = .ok 0
    ∧ sanitize_nums (.str "") = .ok 0
    ∧ sanitize_nums (.str "n/a") = .ok 0
    ∧ sanitize_nums (.str "NaN") = .ok 0
    ∧ sanitize_nums (.str "42.5") = .ok (42.5 : Rat)
    ∧ (∀ s : String, pyFloatParse (pyTrim s) = none →
        sanitize_nums (.str s) = .ok 0) := by
  refine ⟨rfl, rfl, rfl, rfl, ?_, ?_⟩
  · rw [show sanitize_nums (.str "42.5")
        = .ok (((42 : Nat) : Rat) + ((5 : Nat) : Rat) / ((10 : Rat) ^ (1 : Nat)))
      from rfl]
    exact congrArg Except.ok (by norm_num)
  · intro s h
    simp only [sanitize_nums]
    split
    · rfl
    · split
      · rfl
      · rw [h]

/-- C7 witness: `"abc"` is rejected by the float parser and degrades to
`0.0`. -/
theorem claim_C7_witness :
    pyFloatParse (pyTrim "abc") = none
    ∧ sanitize_nums (.str "abc") = .ok 0 :=
  ⟨rfl, claim_C7_numeric_sanitization.2.2.2.2.2 "abc" rfl⟩

/-- C10: `process` is total — it always returns a result whose total is
the input length and whose success count is at most the total — and a
record whose transform fails contributes nothing to the insert payload
without affecting the other records of the batch. -/
theorem claim_C10_process_total (conv : String → Option String)
    (insertOk : Bool) (store : List Trade) (raws : List RawRecord) :
    (process conv insertOk store raws).2.total = raws.length
    ∧ (process conv insertOk store raws).2.success
        ≤ (process conv insertOk store raws).2.total
    ∧ (∀ (xs ys : List RawRecord) (bad : RawRecord),
        raws = xs ++ bad :: ys → transform conv bad = none →
        raws.filterMap (transform conv)
          = (xs ++ ys).filterMap (transform conv)) := by
  refine ⟨?_, ?_, ?_⟩
  · simp only [process]
    split <;> (try split) <;> rfl
  · simp only [process]
    split <;> (try split) <;>
      first
        | exact Nat.zero_le _
        | exact List.length_filterMap_le _ _
  · intro xs ys bad hsplit hbad
    subst hsplit
    rw [List.filterMap_append, List.filterMap_append,
      List.filterMap_cons_none hbad]

/-- C10 witness: a batch of three records whose middle record fails to
transform keeps the other two and reports total 3. -/
theorem claim_C10_witness :
    (process (fun _ => none) true [] [rawEmpty, c10bad, rawEmpty]).2.total = 3
    ∧ ([rawEmpty, c10bad, rawEmpty] : List RawRecord).filterMap
        (transform (fun _ => none))
      = ([rawEmpty] ++ [rawEmpty]).filterMap (transform (fun _ => none)) := by
  refine ⟨?_, ?_⟩
  · exact (claim_C10_process_total (fun _ => none) true []
      [rawEmpty, c10bad, rawEmpty]).1
  · exact (claim_C10_process_total (fun _ => none) true []
      [rawEmpty, c10bad, rawEmpty]).2.2 [rawEmpty] [rawEmpty] c10bad rfl rfl

theorem bind_ok_elim {ε α β : Type} {x : Except ε α} {f : α → Except ε β}
    {b : β} (h : Except.bind x f = .ok b) : ∃ a, x = .ok a ∧ f a = .ok b := by
  cases x with
  | error e =>
    rw [exbind_error] at h
    exact Except.noConfusion h
  | ok a =>
    rw [exbind_ok] at h
    exact ⟨a, rfl, h⟩

/-- C3 (amended): structurally absent identity fields never make the
pydantic model fail; every absent field takes its declared safe default
(`reporterCode`, `partnerCode`, `refYear` default to `0`, `cmdCode` to
`"0000"`, `flowCode` to `"X"`).  A validation failure can only come
from an ill-typed present value. -/
theorem claim_C3_defaults :
    ∀ (r : RawRecord) (m : TradeModel), tradeModelOfRaw r = .ok m →
      tradeModelOfRaw (clearIdentity r)
        = .ok { m with reporterCode := .i 0, partnerCode := .i 0,
                       refYear := .i 0, cmdCode := "0000", flowCode := "X" } := by
  intro r m h
  unfold tradeModelOfRaw at h ⊢
  dsimp only [clearIdentity]
  simp only [fieldOr_none, exbind_ok]
  obtain ⟨v1, h1, h⟩ := bind_ok_elim h
  obtain ⟨v2, h2, h⟩ := bind_ok_elim h
  obtain ⟨v3, h3, h⟩ := bind_ok_elim h
  obtain ⟨v4, h4, h⟩ := bind_ok_elim h
  obtain ⟨v5, h5, h⟩ := bind_ok_elim h
  obtain ⟨v6, h6, h⟩ := bind_ok_elim h
  obtain ⟨v7, h7, h⟩ := bind_ok_elim h
  obtain ⟨v8, h8, h⟩ := bind_ok_elim h
  obtain ⟨v9, h9, h⟩ := bind_ok_elim h
  obtain ⟨v10, h10, h⟩ := bind_ok_elim h
  obtain ⟨v11, h11, h⟩ := bind_ok_elim h
  obtain ⟨v12, h12, h⟩ := bind_ok_elim h
  obtain ⟨v13, h13, h⟩ := bind_ok_elim h
  obtain ⟨v14, h14, h⟩ := bind_ok_elim h
  obtain ⟨v15, h15, h⟩ := bind_ok_elim h
  obtain ⟨v16, h16, h⟩ := bind_ok_elim h
  rw [h6, exbind_ok, h7, exbind_ok, h8, exbind_ok, h9, exbind_ok,
    h10, exbind_ok, h11, exbind_ok, h12, exbind_ok, h13, exbind_ok,
    h14, exbind_ok, h15, exbind_ok, h16, exbind_ok]
  injection h with hm
  subst hm
  rfl

/-- C3 counterexample to the claim as stated: the record with every
identity field structurally absent does not produce a validation
failure — all defaults apply and the model succeeds. -/
theorem claim_C3_counterexample :
    rawEmpty.reporterCode = none ∧ rawEmpty.cmdCode = none
    ∧ tradeModelOfRaw rawEmpty
      = .ok ⟨.i 0, .i 0, .i 0, "0000", "X", none, none, some 0, none,
             some 0, some 0, none, none, none, none, "5"⟩ :=
  ⟨rfl, rfl, rfl⟩

/-- C3 witness: clearing the identity fields of a well-typed record
yields the defaults and still validates. -/
theorem claim_C3_witness :
    tradeModelOfRaw (clearIdentity c3raw)
      = .ok ⟨.i 0, .i 0, .i 0, "0000", "X", none, none, some 0, none,
             some 0, some 0, none, none, none, none, "5"⟩ :=
  claim_C3_defaults c3raw
    ⟨.s "IDN", .i 0, .i 0, "010121", "M", none, none, some 0, none,
     some 0, some 0, none, none, none, none, "5"⟩ rfl

/-- C9: the batching of `JobOrchestrator.run` with the fixed batch size
10 yields chunks of length at most 10, every chunk but possibly the
last of length exactly 10, and the in-order concatenation of the
chunks is the original list — nothing dropped, duplicated or
reordered. -/
theorem claim_C9_batching (l : List String) :
    (∀ c ∈ chunk_list l BATCH_SIZE, c.length ≤ BATCH_SIZE)
    ∧ (∀ (i : Nat) (h : i + 1 < (chunk_list l BATCH_SIZE).length),
        ((chunk_list l BATCH_SIZE).get ⟨i, Nat.lt_of_succ_lt h⟩).length
          = BATCH_SIZE)
    ∧ (chunk_list l BATCH_SIZE).flatten = l := by
  refine ⟨chunk_list_mem_length_le l BATCH_SIZE, ?_,
    chunk_list_join l BATCH_SIZE (by decide)⟩
  intro i h
  exact chunk_list_get_length l BATCH_SIZE i (by decide) h

/-- C9 witness: on an 11-element list the first chunk has length
exactly 10 and the chunks concatenate back to the list. -/
theorem claim_C9_witness :
    (∀ c ∈ chunk_list c9list BATCH_SIZE, c.length ≤ BATCH_SIZE)
    ∧ ((chunk_list c9list BATCH_SIZE).get
        ⟨0, Nat.lt_of_succ_lt (by decide)⟩).length = BATCH_SIZE
    ∧ (chunk_list c9list BATCH_SIZE).flatten = c9list := by
  refine ⟨(claim_C9_batching c9list).1, ?_, (claim_C9_batching c9list).2.2⟩
  exact (claim_C9_batching c9list).2.1 0 (by decide)

/-- C8 counterexample to the fallback half of the claim as stated:
`"0101"` is a purely numeric string of exactly 4 characters, yet the
fallback catalog `[str(i) for i in range(100, 9999) if len(str(i)) == 4]`
does not contain it (decimal representations have no leading zero). -/
theorem claim_C8_counterexample :
    pyIsdigit "0101" = true ∧ "0101".length = 4
    ∧ "0101" ∉ fallbackHs4 := by
  refine ⟨rfl, rfl, ?_⟩
  rw [fallbackHs4_eq]
  intro hmem
  rw [List.mem_map] at hmem
  obtain ⟨n, hn, he⟩ := hmem
  have hb := List.mem_range'_1.mp hn
  have h1 : digitsToNat (Nat.toDigits 10 n) = n := digitsToNat_toDigits n
  rw [show Nat.toDigits 10 n = (toString n).data from
    (toString_nat_data n).symm, he] at h1
  have h2 : digitsToNat "0101".data = 101 := rfl
  omega

/-- C8 (amended): on a successful catalog fetch the accepted codes are
exactly the stringified `id` values that are purely numeric and exactly
4 characters long, sorted ascending; on a failed fetch the fallback
catalog is the list of the decimal strings of 1000 through 9998 in
order — it omits every 4-digit code with a leading zero as well as
`"9999"`. -/
theorem claim_C8_catalog :
    (∀ (ids : List String) (x : String),
        x ∈ getValidHs4 ids ↔ (x ∈ ids ∧ pyIsdigit x = true ∧ x.length = 4))
    ∧ (∀ ids : List String, List.Sorted pyStrLe (getValidHs4 ids))
    ∧ fallbackHs4 = (List.range' 1000 8999).map (fun n => toString n) := by
  refine ⟨?_, ?_, fallbackHs4_eq⟩
  · intro ids x
    unfold getValidHs4 pySorted
    rw [(List.perm_insertionSort pyStrLe _).mem_iff, List.mem_filter]
    simp [Bool.and_eq_true, beq_iff_eq, and_assoc]
  · intro ids
    exact List.sorted_insertionSort pyStrLe _

/-- C5: whenever any batch fetch of the run receives an HTTP 403
response, no further batch is processed in the whole run — the 403 call
is the last element of the trace of API calls, across the current year
and every later year.  (The source joins every reporter into one
comma-separated reporter parameter, so a single run has no per-reporter
loop to continue with.) -/
theorem claim_C5_quota_short_circuit
    (oracle : String → String → HttpOutcome)
    (conv_iso conv_m49 : String → Option String) (store : List Trade)
    (all_hs_codes : List String) (reporters_iso : List String)
    (start_year end_year : Nat)
    (pre post : List (String × List String)) (y : String) (b : List String)
    (htr : (run oracle conv_iso conv_m49 store all_hs_codes reporters_iso
        start_year end_year).2 = pre ++ (y, b) :: post)
    (h403 : oracle403 oracle y b = true) : post = [] := by
  unfold run at htr
  exact runYears_noCall oracle conv_iso all_hs_codes _ _ store pre post y b
    htr h403

/-- C5 witness: with an always-403 oracle the run makes exactly one API
call and nothing follows it. -/
theorem claim_C5_witness :
    (run c5oracle (fun _ => none) (fun _ => none) [] ["0101"] ["IDN"]
        2023 2023).2 = [] ++ ("2023", ["0101"]) :: []
    ∧ ([] : List (String × List String)) = [] := by
  refine ⟨by decide, ?_⟩
  exact claim_C5_quota_short_circuit c5oracle (fun _ => none) (fun _ => none)
    [] ["0101"] ["IDN"] 2023 2023 [] [] "2023" ["0101"] (by decide) (by decide)

/-- C1 evaluated at the failing input: the first run persists one row
whose `hscode` column holds the fetched catalog code "0101" and whose
`id_sektor` column holds the classification scheme "H6"; yet on the
second run the gap detector — which filters on the stringified Python
list `str(r_code)` as reporter key and reads `id_sektor`, not `hscode`
— still returns the full catalog, so the second run performs one API
call instead of zero. -/
theorem claim_C1_not_idempotent :
    c1run1.1.length = 1
    ∧ c1run1.1.map (fun t => t.hscode) = ["0101"]
    ∧ c1run1.1.map (fun t => t.id_sektor) = [some "H6"]
    ∧ gapTarget ["0101"]
        (get_existing_code c1run1.1
          (to_iso3P c1conv_iso (pyStrList ["360"])) "2023") = ["0101"]
    ∧ c1run2.2.length = 1 := by
  refine ⟨by decide, by decide, by decide, by decide, by decide⟩
